import Mathlib

/-!
Verification of the volume-control content script.

The repository's core is `src/content-script.js` (the 0–200% variant):
media elements at or below 100% are driven through the native
`el.volume` property, while amplification above 100% routes elements
through a shared `AudioContext`/`GainNode` pipeline, but only once the
context is confirmed `running`.  A `WeakMap` classifies each element as
`wired` (routed) or `skipped` (ineligible or capture failed).

`src/unnamed/part_001` is the Firefox variant of the same content
script; its `connectElement` and gain-reporting `getVolume` are embedded
separately below (namespace `FF`).

Modelling conventions:
* JS numbers that hold volumes and gains are rationals (`ℚ`); the code
  performs only `v / 100`, comparisons and `Math.round`, all exact.
* The DOM's media elements (`document.querySelectorAll('audio, video')`)
  are a `List MediaElem` in document order; `el.volume` is a mutable
  field.  The `elementStatus` WeakMap is carried as a per-element
  `status` field (lookups are by element identity, and the script only
  ever reads or writes the status of elements it is iterating over).
* `new URL(src, location.href)` is abstracted by `SrcInfo`: the
  element's source is empty, parses to a (protocol, origin) pair, or
  fails to parse (the `catch` branch).
* Platform behaviour the script merely observes is an `Env` record:
  the state a freshly created `AudioContext` starts in, and whether
  `audioCtx.resume()` succeeds (both failure modes of `resume()` —
  rejecting, or resolving while leaving the state suspended — are
  caught/ignored by the script and collapse to "state stays
  suspended").
* `createMediaElementSource(el)` throwing (element already captured by
  a foreign audio graph) is the per-element flag `captureThrows`.
-/

/-- The two values the `elementStatus` WeakMap stores:
`'wired'` (GainNode connected) or `'skipped'` (ineligible / failed). -/
inductive ElemStatus where
  | wired
  | skipped
deriving DecidableEq, Repr

/-- `AudioContext.state` as the script distinguishes it. -/
inductive CtxState where
  | suspended
  | running
deriving DecidableEq, Repr

/-- Abstraction of `el.currentSrc || el.src` and `new URL(src, location.href)`:
the source is empty (falsy), parses to a protocol and an origin, or the
`URL` constructor throws. -/
inductive SrcInfo where
  | empty
  | parsed (protocol : String) (origin : String)
  | invalid
deriving DecidableEq, Repr

/-- One `<audio>`/`<video>` element as the script sees it. -/
structure MediaElem where
  srcInfo : SrcInfo
  /-- `el.crossOrigin`: a string, or null (`none`). -/
  crossOrigin : Option String
  /-- Whether `audioCtx.createMediaElementSource(el)` would throw. -/
  captureThrows : Bool
  /-- `el.volume`, range 0.0–1.0. -/
  volume : ℚ
  /-- This element's entry in the `elementStatus` WeakMap. -/
  status : Option ElemStatus
deriving DecidableEq, Repr

/-- The script's page-level state: the globals `audioCtx`, `gainNode`,
`desiredVolume`, the WeakMap (distributed onto the elements), and the
document's media elements.  `gainNode` is non-null exactly when
`audioCtx` is (both are created together in `ensureContext` and never
nulled), so one `Option CtxState` models both. -/
structure PageState where
  /-- `audioCtx` (`none` = null), with its current `state`. -/
  ctx : Option CtxState
  /-- `gainNode.gain.value`; meaningful only when `ctx` is present. -/
  gain : ℚ
  /-- The global `desiredVolume`. -/
  desiredVolume : ℚ
  /-- `document.querySelectorAll('audio, video')`, in document order. -/
  elements : List MediaElem
deriving DecidableEq, Repr

/-- Platform facts the script observes but does not control. -/
structure Env where
  /-- `location.origin` of the page. -/
  pageOrigin : String
  /-- The `state` a fresh `new AudioContext()` starts in. -/
  newCtxState : CtxState
  /-- Whether `audioCtx.resume()` moves a suspended context to running. -/
  resumeWorks : Bool
deriving DecidableEq, Repr

namespace CS

/-- `canUseWebAudioBoost(el)` from `src/content-script.js` lines 16–30:
empty source fails; `data:`/`blob:` protocols and same-origin URLs pass;
otherwise the element passes only when `el.crossOrigin` is a non-empty
string; a throwing `URL` constructor fails. -/
def canUseWebAudioBoost (pageOrigin : String) (el : MediaElem) : Bool :=
  match el.srcInfo with
  | SrcInfo.empty => false
  | SrcInfo.invalid => false
  | SrcInfo.parsed protocol origin =>
      protocol = "data:" || protocol = "blob:" || origin = pageOrigin ||
        (match el.crossOrigin with
         | some s => s.length > 0
         | none => false)

/-- `wireElement(el)` from `src/content-script.js` lines 39–55: return
unchanged when the WeakMap already has the element; classify `skipped`
when the eligibility pre-check fails; otherwise try the capture —
`wired` on success, `skipped` when `createMediaElementSource` throws. -/
def wireElement (pageOrigin : String) (el : MediaElem) : MediaElem :=
  if el.status.isSome then el
  else if ¬ canUseWebAudioBoost pageOrigin el then
    { el with status := some ElemStatus.skipped }
  else if el.captureThrows then
    { el with status := some ElemStatus.skipped }
  else
    { el with status := some ElemStatus.wired }

/-- The context state right after `ensureContext()` (lines 32–37): the
existing context's state, or the state a fresh `new AudioContext()`
starts in. -/
def ensuredCtx (env : Env) (s : PageState) : CtxState :=
  match s.ctx with
  | some c => c
  | none => env.newCtxState

/-- Lines 80–82: when the context is suspended the script attempts
`await audioCtx.resume()` (exceptions swallowed); a running context is
left alone. -/
def resumeCtx (env : Env) (c : CtxState) : CtxState :=
  match c with
  | CtxState.running => CtxState.running
  | CtxState.suspended =>
      if env.resumeWorks then CtxState.running else CtxState.suspended

/-- `applyVolume()` from `src/content-script.js` lines 57–100.

* `vol ≤ 100` (lines 60–73): `if (gainNode) gainNode.gain.value = vol/100`,
  then each element gets `el.volume = 1.0` when wired, else `vol/100`.
* `vol > 100` (lines 76–99): `ensureContext()`, `gainNode.gain.value =
  vol/100` (the fresh gain node's default 1.0 is immediately
  overwritten, so the net gain is `vol/100`), a resume attempt if
  suspended, then:
  - context still not running (lines 84–93): `el.volume = 1.0` on ALL
    elements, including skipped ones; no wiring;
  - context running (lines 95–99): `wireElement(el)` then
    `el.volume = 1.0` for every element. -/
def applyVolume (env : Env) (s : PageState) : PageState :=
  let vol := s.desiredVolume
  if vol ≤ 100 then
    { s with
      gain := if s.ctx.isSome then vol / 100 else s.gain,
      elements := s.elements.map fun el =>
        if el.status = some ElemStatus.wired then { el with volume := 1 }
        else { el with volume := vol / 100 } }
  else
    let c := resumeCtx env (ensuredCtx env s)
    if c = CtxState.running then
      { s with
        ctx := some c,
        gain := vol / 100,
        elements := s.elements.map fun el =>
          { wireElement env.pageOrigin el with volume := 1 } }
    else
      { s with
        ctx := some c,
        gain := vol / 100,
        elements := s.elements.map fun el => { el with volume := 1 } }

/-- `getVolume()` from `src/content-script.js` lines 127–129:
`document.querySelector('audio, video') ? desiredVolume : null`. -/
def getVolume (s : PageState) : Option ℚ :=
  if s.elements.isEmpty then none else some s.desiredVolume

/-- The `{ok: true, volume: ...}` reply to a `set-volume` message. -/
structure SetVolumeResponse where
  ok : Bool
  volume : ℚ
deriving DecidableEq, Repr

/-- The `set-volume` branch of the message listener, lines 131–141:
`desiredVolume = Math.max(0, Math.min(200, msg.volume))`, then
`applyVolume()`, and only in its `.finally` the reply
`{ok: true, volume: desiredVolume}` (reading the global after the apply
attempt completes). -/
def handleSetVolume (env : Env) (v : ℚ) (s : PageState) :
    PageState × SetVolumeResponse :=
  let s1 := applyVolume env { s with desiredVolume := max 0 (min 200 v) }
  (s1, ⟨true, s1.desiredVolume⟩)

end CS

namespace FF

/-!
The Firefox variant, `src/unnamed/part_001`.  One shared `AudioContext`
(`sharedCtx`); a `Map<HTMLMediaElement, GainNode>` called `tracked`
wires each element through its own gain node.

Two views of that script are embedded.  `connectElement` works on the
element it is handed, so there the element's `tracked` entry is carried
as a per-element `gainEntry` field (the Map keys elements by identity
and `connectElement` only consults the entry of its own argument).
`getVolume`, however, consults the global Map itself: a JS `Map`
iterates in insertion order and holds strong references, so an entry
survives its element's removal from the document.  `FFPage` therefore
models the Map as its own insertion-ordered list of gain values,
independent of the document's current element list — including the
state where an entry's element is no longer in the document.
-/

/-- One media element of the Firefox variant: its `el.volume`, whether
`createMediaElementSource` would throw on it, and its `tracked` entry
(the wired gain node's `gain.value`), if any. -/
structure FFElem where
  captureThrows : Bool
  volume : ℚ
  gainEntry : Option ℚ
deriving DecidableEq, Repr

/-- Page state of the Firefox variant: `sharedCtx`, `desiredVolume`, and
the document's media elements (with their `tracked` entries). -/
structure FFState where
  sharedCtx : Option CtxState
  desiredVolume : ℚ
  elements : List FFElem
deriving DecidableEq, Repr

/-- `connectElement(el)` from `src/unnamed/part_001` lines 75–96:
already tracked → true; context absent or not running → false, nothing
changed; capture throws → false, nothing changed; otherwise the element
is wired (`gain.gain.value = desiredVolume / 100`, `el.volume = 1`,
`tracked.set`) and true is returned. -/
def connectElement (s : FFState) (el : FFElem) : Bool × FFElem :=
  if el.gainEntry.isSome then (true, el)
  else if s.sharedCtx ≠ some CtxState.running then (false, el)
  else if el.captureThrows then (false, el)
  else (true, { el with gainEntry := some (s.desiredVolume / 100), volume := 1 })

/-- The state `getVolume` of `src/unnamed/part_001` observes:
`trackedGains` is `gain.gain.value` of every entry of the global
`tracked` Map, in Map insertion order — an entry stays in the Map even
after its element is removed from the document; `docVolumes` is
`el.volume` of `document.querySelectorAll('audio, video')`, in document
order.  The two lists are independent: a tracked element may have left
the document, and a document element may be untracked. -/
structure FFPage where
  trackedGains : List ℚ
  docVolumes : List ℚ
deriving DecidableEq, Repr

/-- `getVolume()` from `src/unnamed/part_001` lines 131–138: when
`tracked.size > 0`, report `Math.round` of the first inserted entry's
gain times 100 (`tracked.values().next().value.gain.value`); else
report the first document media element's native volume times 100,
rounded; else null. -/
def getVolume (p : FFPage) : Option ℤ :=
  match p.trackedGains.head? with
  | some g => some (round (g * 100))
  | none =>
      match p.docVolumes.head? with
      | some v => some (round (v * 100))
      | none => none

end FF

/-!
## Shared lemmas
-/

namespace CS

/-- `wireElement` always leaves the element classified. -/
theorem wireElement_status_isSome (o : String) (el : MediaElem) :
    (wireElement o el).status.isSome := by
  unfold wireElement
  split_ifs with h h2 h3 <;> simp [h]

/-- `wireElement` never touches an element the WeakMap already has. -/
theorem wireElement_of_status_isSome (o : String) (el : MediaElem)
    (h : el.status.isSome) : wireElement o el = el := by
  simp [wireElement, h]

/-- `applyVolume` never changes `desiredVolume`. -/
theorem applyVolume_desiredVolume (env : Env) (s : PageState) :
    (applyVolume env s).desiredVolume = s.desiredVolume := by
  simp only [applyVolume]
  split_ifs <;> rfl

/-- Shape of `applyVolume` on the native path (`vol ≤ 100`). -/
theorem applyVolume_low (env : Env) (s : PageState)
    (h1 : s.desiredVolume ≤ 100) :
    applyVolume env s =
      { s with
        gain := if s.ctx.isSome then s.desiredVolume / 100 else s.gain,
        elements := s.elements.map fun el =>
          if el.status = some ElemStatus.wired then { el with volume := 1 }
          else { el with volume := s.desiredVolume / 100 } } := by
  simp [applyVolume, if_pos h1]

/-- Shape of `applyVolume` on the boost path with the context confirmed
running after the resume attempt. -/
theorem applyVolume_boost_running (env : Env) (s : PageState)
    (h1 : ¬ s.desiredVolume ≤ 100)
    (h2 : resumeCtx env (ensuredCtx env s) = CtxState.running) :
    applyVolume env s =
      { s with
        ctx := some CtxState.running,
        gain := s.desiredVolume / 100,
        elements := s.elements.map fun el =>
          { wireElement env.pageOrigin el with volume := 1 } } := by
  simp [applyVolume, if_neg h1, h2]

/-- Shape of `applyVolume` on the boost path with the context still not
running after the resume attempt. -/
theorem applyVolume_boost_blocked (env : Env) (s : PageState)
    (h1 : ¬ s.desiredVolume ≤ 100)
    (h2 : resumeCtx env (ensuredCtx env s) ≠ CtxState.running) :
    applyVolume env s =
      { s with
        ctx := some (resumeCtx env (ensuredCtx env s)),
        gain := s.desiredVolume / 100,
        elements := s.elements.map fun el => { el with volume := 1 } } := by
  simp [applyVolume, if_neg h1, if_neg h2]

end CS

/-- Mapping an idempotent per-element update twice equals mapping once. -/
theorem map_update_idem {α : Type} (f : α → α) (hf : ∀ a, f (f a) = f a)
    (l : List α) : (l.map f).map f = l.map f := by
  induction l with
  | nil => rfl
  | cons a l ih => simp [hf, ih]

/-!
## Claim theorems
-/

/-- C1: a Route is created only when the audio-processing context is
confirmed running at the time of the routing attempt.  (a) In
`applyVolume` of `src/content-script.js`, any element that becomes
`wired` during the call ends the call with the context present and
running — no element is ever captured into a suspended pipeline.
(b) In `connectElement` of `src/unnamed/part_001`, an untracked element
with the shared context absent or not running yields failure (`false`)
with no side effects. -/
theorem C1_route_only_when_context_running :
    (∀ (env : Env) (s : PageState) (i : ℕ) (el el' : MediaElem),
        s.elements[i]? = some el →
        (CS.applyVolume env s).elements[i]? = some el' →
        el.status ≠ some ElemStatus.wired →
        el'.status = some ElemStatus.wired →
        (CS.applyVolume env s).ctx = some CtxState.running) ∧
    (∀ (s : FF.FFState) (el : FF.FFElem),
        el.gainEntry = none →
        s.sharedCtx ≠ some CtxState.running →
        FF.connectElement s el = (false, el)) := by
  constructor
  · intro env s i el el' hel hel' hne hw
    by_cases h1 : s.desiredVolume ≤ 100
    · simp only [CS.applyVolume, if_pos h1, List.getElem?_map, hel,
        Option.map_some', Option.some.injEq] at hel'
      subst hel'
      split at hw <;> simp_all
    · by_cases h2 : CS.resumeCtx env (CS.ensuredCtx env s) = CtxState.running
      · simp [CS.applyVolume, if_neg h1, h2]
      · simp only [CS.applyVolume, if_neg h1, if_neg h2, List.getElem?_map,
          hel, Option.map_some', Option.some.injEq] at hel'
        subst hel'
        simp_all
  · intro s el hnone hctx
    simp [FF.connectElement, hnone, hctx]

/-- Witness for C1 at concrete inputs: a page whose context is still
suspended after the boost attempt wires nothing, and `connectElement`
on a suspended shared context fails without side effects. -/
theorem C1_witness :
    FF.connectElement
      ⟨some CtxState.suspended, 150, [⟨false, 1/2, none⟩]⟩
      ⟨false, 1/2, none⟩
      = (false, ⟨false, 1/2, none⟩) :=
  C1_route_only_when_context_running.2
    ⟨some CtxState.suspended, 150, [⟨false, 1/2, none⟩]⟩
    ⟨false, 1/2, none⟩ rfl (by decide)

/-- C2: once an element is wired, every `applyVolume` call — for any
desired volume, below 100 included — pins its native volume to exactly
1.0, keeps it classified `wired` (the route is never torn down), and
expresses the desired volume solely through the shared gain factor
`desiredVolume / 100`.  The hypothesis that the context exists is the
invariant every reachable state with a wired element satisfies (wiring
happens only through the context). -/
theorem C2_wired_volume_pinned_gain_controls
    (env : Env) (s : PageState) (i : ℕ) (el : MediaElem)
    (hctx : s.ctx.isSome)
    (hel : s.elements[i]? = some el)
    (hw : el.status = some ElemStatus.wired) :
    ∃ el', (CS.applyVolume env s).elements[i]? = some el' ∧
      el'.volume = 1 ∧ el'.status = some ElemStatus.wired ∧
      (CS.applyVolume env s).gain = s.desiredVolume / 100 := by
  have hwired : ∀ q : ℚ,
      (if el.status = some ElemStatus.wired then { el with volume := 1 }
       else { el with volume := q }) = { el with volume := 1 } := by
    intro q; simp [hw]
  by_cases h1 : s.desiredVolume ≤ 100
  · refine ⟨{ el with volume := 1 }, ?_, rfl, hw, ?_⟩
    · simp [CS.applyVolume, if_pos h1, List.getElem?_map, hel, hwired]
    · simp [CS.applyVolume, if_pos h1, hctx]
  · by_cases h2 : CS.resumeCtx env (CS.ensuredCtx env s) = CtxState.running
    · refine ⟨{ el with volume := 1 }, ?_, rfl, hw, ?_⟩
      · simp [CS.applyVolume, if_neg h1, h2, List.getElem?_map, hel,
          CS.wireElement, hw]
      · simp [CS.applyVolume, if_neg h1, h2]
    · refine ⟨{ el with volume := 1 }, ?_, rfl, hw, ?_⟩
      · simp [CS.applyVolume, if_neg h1, if_neg h2, List.getElem?_map, hel]
      · simp [CS.applyVolume, if_neg h1, if_neg h2]

/-- Witness for C2: a wired element on a page with a running context and
desired volume 80 (below 100) keeps native volume 1.0, stays wired, and
the gain becomes 80/100. -/
theorem C2_witness :
    ∃ el',
      (CS.applyVolume ⟨"o", CtxState.running, true⟩
        ⟨some CtxState.running, 3/2, 80,
          [⟨SrcInfo.empty, none, false, 1, some ElemStatus.wired⟩]⟩).elements[0]?
        = some el' ∧
      el'.volume = 1 ∧ el'.status = some ElemStatus.wired ∧
      (CS.applyVolume ⟨"o", CtxState.running, true⟩
        ⟨some CtxState.running, 3/2, 80,
          [⟨SrcInfo.empty, none, false, 1, some ElemStatus.wired⟩]⟩).gain
        = (80 : ℚ) / 100 :=
  C2_wired_volume_pinned_gain_controls
    ⟨"o", CtxState.running, true⟩
    ⟨some CtxState.running, 3/2, 80,
      [⟨SrcInfo.empty, none, false, 1, some ElemStatus.wired⟩]⟩
    0 ⟨SrcInfo.empty, none, false, 1, some ElemStatus.wired⟩
    (by decide) (by decide) (by decide)

/-- C3: an element whose source is not same-origin, not `data:`/`blob:`
and not CORS-marked (the `canUseWebAudioBoost` pre-check fails) is never
routed by `applyVolume`; whenever `wireElement` first evaluates it the
pre-check classifies it `skipped` before any capture operation (the
outcome does not consult `captureThrows`); its classification only ever
becomes `skipped`; and for any requested volume above 100 its native
volume ends at most 1.0. -/
theorem C3_ineligible_never_routed
    (env : Env) (s : PageState) (i : ℕ) (el : MediaElem)
    (hcan : ¬ CS.canUseWebAudioBoost env.pageOrigin el)
    (hel : s.elements[i]? = some el)
    (hnw : el.status ≠ some ElemStatus.wired) :
    (el.status = none →
      CS.wireElement env.pageOrigin el = { el with status := some ElemStatus.skipped }) ∧
    ∃ el', (CS.applyVolume env s).elements[i]? = some el' ∧
      el'.status ≠ some ElemStatus.wired ∧
      (el'.status = el.status ∨ el'.status = some ElemStatus.skipped) ∧
      (100 < s.desiredVolume → el'.volume ≤ 1) := by
  refine ⟨fun h0 => by simp [CS.wireElement, h0, hcan], ?_⟩
  by_cases h1 : s.desiredVolume ≤ 100
  · refine ⟨{ el with volume := s.desiredVolume / 100 }, ?_, hnw, Or.inl rfl, ?_⟩
    · simp [CS.applyVolume, if_pos h1, List.getElem?_map, hel, hnw]
    · intro h; exact absurd h1 (not_le.mpr h)
  · by_cases h2 : CS.resumeCtx env (CS.ensuredCtx env s) = CtxState.running
    · refine ⟨{ CS.wireElement env.pageOrigin el with volume := 1 }, ?_, ?_, ?_, fun _ => le_refl 1⟩
      · rw [CS.applyVolume_boost_running env s h1 h2]
        simp [List.getElem?_map, hel]
      · show (CS.wireElement env.pageOrigin el).status ≠ some ElemStatus.wired
        cases hst : el.status with
        | none => simp [CS.wireElement, hst, hcan]
        | some st =>
            rw [CS.wireElement_of_status_isSome _ _ (by simp [hst])]
            exact hnw
      · show (CS.wireElement env.pageOrigin el).status = el.status ∨
          (CS.wireElement env.pageOrigin el).status = some ElemStatus.skipped
        cases hst : el.status with
        | none => exact Or.inr (by simp [CS.wireElement, hst, hcan])
        | some st =>
            have hws := CS.wireElement_of_status_isSome env.pageOrigin el (by simp [hst])
            exact Or.inl (by rw [hws]; exact hst)
    · refine ⟨{ el with volume := 1 }, ?_, hnw, Or.inl rfl, fun _ => le_refl 1⟩
      simp [CS.applyVolume, if_neg h1, if_neg h2, List.getElem?_map, hel]

/-- Witness for C3: a cross-origin, non-CORS video under a boost request
at 250 on a running context ends up `skipped`, unrouted, and with native
volume exactly 1.0. -/
theorem C3_witness :
    (CS.wireElement "https://page.example"
        ⟨SrcInfo.parsed "https:" "https://evil.example", none, false, 1/2, none⟩
      = { srcInfo := SrcInfo.parsed "https:" "https://evil.example",
          crossOrigin := none, captureThrows := false, volume := 1/2,
          status := some ElemStatus.skipped }) ∧
    ∃ el',
      (CS.applyVolume ⟨"https://page.example", CtxState.running, true⟩
        ⟨some CtxState.running, 1, 250,
          [⟨SrcInfo.parsed "https:" "https://evil.example", none, false, 1/2, none⟩]⟩).elements[0]?
        = some el' ∧
      el'.status ≠ some ElemStatus.wired ∧
      (el'.status = (none : Option ElemStatus) ∨ el'.status = some ElemStatus.skipped) ∧
      ((100 : ℚ) < 250 → el'.volume ≤ 1) := by
  have h := C3_ineligible_never_routed
    ⟨"https://page.example", CtxState.running, true⟩
    ⟨some CtxState.running, 1, 250,
      [⟨SrcInfo.parsed "https:" "https://evil.example", none, false, 1/2, none⟩]⟩
    0 ⟨SrcInfo.parsed "https:" "https://evil.example", none, false, 1/2, none⟩
    (by decide) rfl (by decide)
  exact ⟨h.1 rfl, h.2⟩

/-- C4: no failure path of `applyVolume` silences audible media: when
the desired volume is positive, every element ends with positive native
volume, and the shared gain is either untouched or positive. -/
theorem C4_no_path_silences_media
    (env : Env) (s : PageState)
    (hpos : 0 < s.desiredVolume) :
    (∀ el' ∈ (CS.applyVolume env s).elements, 0 < el'.volume) ∧
    ((CS.applyVolume env s).gain = s.gain ∨ 0 < (CS.applyVolume env s).gain) := by
  have hq : (0 : ℚ) < s.desiredVolume / 100 := by positivity
  constructor
  · intro el' hel'
    by_cases h1 : s.desiredVolume ≤ 100
    · rw [CS.applyVolume_low env s h1] at hel'
      simp only [List.mem_map] at hel'
      obtain ⟨el, -, rfl⟩ := hel'
      split_ifs with h
      · simp
      · simpa using hq
    · by_cases h2 : CS.resumeCtx env (CS.ensuredCtx env s) = CtxState.running
      · rw [CS.applyVolume_boost_running env s h1 h2] at hel'
        simp only [List.mem_map] at hel'
        obtain ⟨el, -, rfl⟩ := hel'
        norm_num
      · rw [CS.applyVolume_boost_blocked env s h1 h2] at hel'
        simp only [List.mem_map] at hel'
        obtain ⟨el, -, rfl⟩ := hel'
        norm_num
  · by_cases h1 : s.desiredVolume ≤ 100
    · by_cases hc : s.ctx.isSome
      · exact Or.inr (by rw [CS.applyVolume_low env s h1]; simpa [hc] using hq)
      · exact Or.inl (by rw [CS.applyVolume_low env s h1]; simp [hc])
    · by_cases h2 : CS.resumeCtx env (CS.ensuredCtx env s) = CtxState.running
      · exact Or.inr (by rw [CS.applyVolume_boost_running env s h1 h2]; exact hq)
      · exact Or.inr (by rw [CS.applyVolume_boost_blocked env s h1 h2]; exact hq)

/-- Witness for C4: desired volume 150 on a suspended context that will
not resume leaves the lone element audible (volume 1) and the gain
positive. -/
theorem C4_witness :
    (∀ el' ∈ (CS.applyVolume ⟨"o", CtxState.suspended, false⟩
        ⟨some CtxState.suspended, 1, 150,
          [⟨SrcInfo.empty, none, false, 1/2, none⟩]⟩).elements, 0 < el'.volume) ∧
    ((CS.applyVolume ⟨"o", CtxState.suspended, false⟩
        ⟨some CtxState.suspended, 1, 150,
          [⟨SrcInfo.empty, none, false, 1/2, none⟩]⟩).gain = 1 ∨
      0 < (CS.applyVolume ⟨"o", CtxState.suspended, false⟩
        ⟨some CtxState.suspended, 1, 150,
          [⟨SrcInfo.empty, none, false, 1/2, none⟩]⟩).gain) :=
  C4_no_path_silences_media
    ⟨"o", CtxState.suspended, false⟩
    ⟨some CtxState.suspended, 1, 150, [⟨SrcInfo.empty, none, false, 1/2, none⟩]⟩
    (by decide)

/-- C5 counterexample: with desired volume 150, an existing suspended
context that fails to resume, and one element at native volume 1/2,
`applyVolume` does write a native volume — every element is set to 1.0 —
so elements needing amplification are not "left untouched at whatever
native volume they already have". -/
theorem C5_counterexample :
    (100 : ℚ) <
      (⟨some CtxState.suspended, 1, 150,
        [⟨SrcInfo.empty, none, false, 1/2, none⟩]⟩ : PageState).desiredVolume ∧
    (⟨some CtxState.suspended, 1, 150,
      [⟨SrcInfo.empty, none, false, 1/2, none⟩]⟩ : PageState).ctx
        = some CtxState.suspended ∧
    (CS.applyVolume ⟨"o", CtxState.suspended, false⟩
      ⟨some CtxState.suspended, 1, 150,
        [⟨SrcInfo.empty, none, false, 1/2, none⟩]⟩).ctx
        = some CtxState.suspended ∧
    (CS.applyVolume ⟨"o", CtxState.suspended, false⟩
      ⟨some CtxState.suspended, 1, 150,
        [⟨SrcInfo.empty, none, false, 1/2, none⟩]⟩).elements.map MediaElem.volume
        = [1] ∧
    ((1 : ℚ) ≠ 1/2) := by
  refine ⟨by norm_num, rfl, ?_, ?_, by norm_num⟩ <;>
    · rw [CS.applyVolume_boost_blocked _ _ (by norm_num) (by decide)]
      rfl

/-- C5 amended: when the desired volume exceeds 100 and the context
exists but stays suspended (the resume attempt fails), `applyVolume`
sets every element's native volume to 1.0 — native maximum, skipped
elements included — rather than leaving them untouched; it attempts no
routing (the element list is exactly the old one with every native
volume overwritten by 1.0, statuses unchanged) and leaves the context
suspended. -/
theorem C5_blocked_boost_writes_native_max
    (env : Env) (s : PageState)
    (hv : 100 < s.desiredVolume)
    (hs : s.ctx = some CtxState.suspended)
    (hr : env.resumeWorks = false) :
    (CS.applyVolume env s).elements
        = s.elements.map (fun el => { el with volume := 1 }) ∧
    (CS.applyVolume env s).ctx = some CtxState.suspended := by
  have h1 : ¬ s.desiredVolume ≤ 100 := not_le.mpr hv
  have hc : CS.resumeCtx env (CS.ensuredCtx env s) = CtxState.suspended := by
    simp [CS.ensuredCtx, CS.resumeCtx, hs, hr]
  have h2 : CS.resumeCtx env (CS.ensuredCtx env s) ≠ CtxState.running := by
    rw [hc]; exact fun h => CtxState.noConfusion h
  rw [CS.applyVolume_boost_blocked env s h1 h2]
  exact ⟨rfl, by rw [PageState.ctx, hc]⟩

/-- Witness for C5 amended: the counterexample state — element at 1/2,
suspended context, desired volume 150 — ends with the element written to
1.0 and the context still suspended. -/
theorem C5_witness :
    (CS.applyVolume ⟨"p", CtxState.suspended, false⟩
      ⟨some CtxState.suspended, 1, 150,
        [⟨SrcInfo.empty, none, false, 1/2, some ElemStatus.skipped⟩]⟩).elements
      = [⟨SrcInfo.empty, none, false, 1, some ElemStatus.skipped⟩] ∧
    (CS.applyVolume ⟨"p", CtxState.suspended, false⟩
      ⟨some CtxState.suspended, 1, 150,
        [⟨SrcInfo.empty, none, false, 1/2, some ElemStatus.skipped⟩]⟩).ctx
      = some CtxState.suspended :=
  C5_blocked_boost_writes_native_max
    ⟨"p", CtxState.suspended, false⟩
    ⟨some CtxState.suspended, 1, 150,
      [⟨SrcInfo.empty, none, false, 1/2, some ElemStatus.skipped⟩]⟩
    (by norm_num) rfl rfl

/-- C6: for any desired volume in [0, 100], after `applyVolume` every
non-routed element's native volume equals desiredVolume/100 (and its
classification is untouched). -/
theorem C6_native_only_volume_tracks_desired
    (env : Env) (s : PageState)
    (_h0 : 0 ≤ s.desiredVolume) (h1 : s.desiredVolume ≤ 100)
    (i : ℕ) (el : MediaElem)
    (hel : s.elements[i]? = some el)
    (hnw : el.status ≠ some ElemStatus.wired) :
    ∃ el', (CS.applyVolume env s).elements[i]? = some el' ∧
      el'.volume = s.desiredVolume / 100 ∧ el'.status = el.status := by
  rw [CS.applyVolume_low env s h1]
  refine ⟨{ el with volume := s.desiredVolume / 100 }, ?_, rfl, rfl⟩
  simp [List.getElem?_map, hel, hnw]

/-- Witness for C6: desired volume 75 drives an unclassified element at
native volume 1/3 to exactly 75/100. -/
theorem C6_witness :
    ∃ el',
      (CS.applyVolume ⟨"o", CtxState.suspended, false⟩
        ⟨none, 1, 75, [⟨SrcInfo.empty, none, false, 1/3, none⟩]⟩).elements[0]?
        = some el' ∧
      el'.volume = (75 : ℚ) / 100 ∧ el'.status = (none : Option ElemStatus) :=
  C6_native_only_volume_tracks_desired
    ⟨"o", CtxState.suspended, false⟩
    ⟨none, 1, 75, [⟨SrcInfo.empty, none, false, 1/3, none⟩]⟩
    (by norm_num) (by norm_num) 0
    ⟨SrcInfo.empty, none, false, 1/3, none⟩ rfl (by decide)

/-- C7: `applyVolume` is idempotent — a second invocation with the same
environment and no intervening change reproduces exactly the same page
state (native volumes, gain, context, classifications). -/
theorem C7_applyVolume_idempotent (env : Env) (s : PageState) :
    CS.applyVolume env (CS.applyVolume env s) = CS.applyVolume env s := by
  by_cases h1 : s.desiredVolume ≤ 100
  · rw [CS.applyVolume_low env s h1]
    rw [CS.applyVolume_low env
      { s with
        gain := if s.ctx.isSome then s.desiredVolume / 100 else s.gain,
        elements := s.elements.map fun el =>
          if el.status = some ElemStatus.wired then { el with volume := 1 }
          else { el with volume := s.desiredVolume / 100 } } h1]
    simp only [PageState.mk.injEq, true_and, and_true]
    refine ⟨?_, ?_⟩
    · by_cases hc : s.ctx.isSome <;> simp [hc]
    · exact map_update_idem _ (fun el => by
        by_cases h : el.status = some ElemStatus.wired <;> simp [h]) _
  · by_cases h2 : CS.resumeCtx env (CS.ensuredCtx env s) = CtxState.running
    · rw [CS.applyVolume_boost_running env s h1 h2]
      rw [CS.applyVolume_boost_running env
        { s with
          ctx := some CtxState.running,
          gain := s.desiredVolume / 100,
          elements := s.elements.map fun el =>
            { CS.wireElement env.pageOrigin el with volume := 1 } } h1
        (by simp [CS.ensuredCtx, CS.resumeCtx])]
      simp only [PageState.mk.injEq, true_and, and_true]
      refine map_update_idem _ (fun el => ?_) _
      have hs2 : ({ CS.wireElement env.pageOrigin el with volume := 1 } : MediaElem).status.isSome :=
        CS.wireElement_status_isSome env.pageOrigin el
      rw [CS.wireElement_of_status_isSome env.pageOrigin _ hs2]
    · have hsusp : CS.resumeCtx env (CS.ensuredCtx env s) = CtxState.suspended := by
        cases h : CS.resumeCtx env (CS.ensuredCtx env s)
        · rfl
        · exact absurd h h2
      have hrw : env.resumeWorks = false := by
        cases hb : env.resumeWorks
        · rfl
        · exfalso
          apply h2
          cases hcc : CS.ensuredCtx env s <;> simp [CS.resumeCtx, hb]
      rw [CS.applyVolume_boost_blocked env s h1 h2, hsusp]
      rw [CS.applyVolume_boost_blocked env
        { s with
          ctx := some CtxState.suspended,
          gain := s.desiredVolume / 100,
          elements := s.elements.map fun el => { el with volume := 1 } } h1
        (by simp [CS.ensuredCtx, CS.resumeCtx, hrw])]
      simp only [PageState.mk.injEq, true_and, and_true]
      refine ⟨?_, map_update_idem
        (fun el : MediaElem => { el with volume := 1 }) (fun el => rfl) _⟩
      simp [CS.ensuredCtx, CS.resumeCtx, hrw]

/-- C8: every `set-volume` request succeeds: the requested value is
clamped into [0, 200] (nearest bound when out of range, identity when in
range), the clamped value becomes the stored desired volume, the Volume
Applier runs on it, and the reply `{ok: true, volume: clamped}` is
produced from the state after the apply attempt completes. -/
theorem C8_set_volume_clamps_and_replies (env : Env) (s : PageState) (v : ℚ) :
    (CS.handleSetVolume env v s).2.ok = true ∧
    (CS.handleSetVolume env v s).2.volume = max 0 (min 200 v) ∧
    (0 ≤ (CS.handleSetVolume env v s).2.volume ∧
      (CS.handleSetVolume env v s).2.volume ≤ 200) ∧
    (v < 0 → (CS.handleSetVolume env v s).2.volume = 0) ∧
    (200 < v → (CS.handleSetVolume env v s).2.volume = 200) ∧
    (0 ≤ v → v ≤ 200 → (CS.handleSetVolume env v s).2.volume = v) ∧
    (CS.handleSetVolume env v s).1 =
      CS.applyVolume env { s with desiredVolume := max 0 (min 200 v) } := by
  have hvol : (CS.handleSetVolume env v s).2.volume = max 0 (min 200 v) := by
    show (CS.applyVolume env _).desiredVolume = _
    rw [CS.applyVolume_desiredVolume]
  refine ⟨rfl, hvol, ⟨?_, ?_⟩, ?_, ?_, ?_, rfl⟩
  · rw [hvol]; exact le_max_left 0 _
  · rw [hvol]; exact max_le (by norm_num) (min_le_left _ _)
  · intro hv
    rw [hvol, min_eq_right (le_of_lt (hv.trans (by norm_num))),
      max_eq_left (le_of_lt hv)]
  · intro hv
    rw [hvol, min_eq_left (le_of_lt hv), max_eq_right (by norm_num)]
  · intro hv0 hv200
    rw [hvol, min_eq_right hv200, max_eq_right hv0]

/-- Witness for C8: a request for volume 300 (above the 200 ceiling)
still succeeds, replying ok with the clamped value 200. -/
theorem C8_witness :
    (CS.handleSetVolume ⟨"o", CtxState.suspended, false⟩ 300
      ⟨none, 1, 100, [⟨SrcInfo.empty, none, false, 1, none⟩]⟩).2.ok = true ∧
    (CS.handleSetVolume ⟨"o", CtxState.suspended, false⟩ 300
      ⟨none, 1, 100, [⟨SrcInfo.empty, none, false, 1, none⟩]⟩).2.volume = 200 := by
  have h := C8_set_volume_clamps_and_replies ⟨"o", CtxState.suspended, false⟩
    ⟨none, 1, 100, [⟨SrcInfo.empty, none, false, 1, none⟩]⟩ 300
  exact ⟨h.1, h.2.2.2.2.1 (by norm_num)⟩

/-- C9 counterexample: "returns null if and only if no media element is
present in the document at call time" is false of `getVolume` in
`src/unnamed/part_001`: the `tracked` Map holds strong, insertion-ordered
entries that survive an element's removal from the document, so with one
stale tracked gain node (gain 2, left over from a wired element the page
removed) and no media element in the document, `getVolume` returns 200,
not the null sentinel. -/
theorem C9_counterexample :
    (⟨[2], []⟩ : FF.FFPage).docVolumes = [] ∧
    FF.getVolume ⟨[2], []⟩ = some 200 ∧
    FF.getVolume ⟨[2], []⟩ ≠ none := by
  have h : FF.getVolume ⟨[2], []⟩ = some 200 := by
    show some (round ((2 : ℚ) * 100)) = some 200
    norm_num [round_eq]
  exact ⟨rfl, h, by rw [h]; exact fun hc => Option.noConfusion hc⟩

/-- C9 amended: with media present, `get-volume` returns the current
volume, and whenever any element is routed the value reflects the gain
actually in effect — in `src/content-script.js` because every
`applyVolume` leaves `gain = desiredVolume/100` whenever the pipeline
exists (so the reported desired volume equals 100 × the shared gain),
in `src/unnamed/part_001` because `getVolume` reads the first tracked
gain node directly.  The null sentinel: `src/content-script.js` returns
null exactly when no media element is in the document; `part_001`
returns null exactly when no media element is in the document AND the
tracked Map is empty — a stale tracked entry surviving its element's
removal makes it report that gain instead of null even with no media
present. -/
theorem C9_get_volume_sentinel_and_gain_amended :
    (∀ s : PageState, CS.getVolume s = none ↔ s.elements = []) ∧
    (∀ s : PageState, s.elements ≠ [] → CS.getVolume s = some s.desiredVolume) ∧
    (∀ (env : Env) (s : PageState),
        (CS.applyVolume env s).ctx.isSome →
        (CS.applyVolume env s).gain
          = (CS.applyVolume env s).desiredVolume / 100) ∧
    (∀ p : FF.FFPage,
        FF.getVolume p = none ↔ (p.trackedGains = [] ∧ p.docVolumes = [])) ∧
    (∀ (p : FF.FFPage) (g : ℚ),
        p.trackedGains.head? = some g →
        FF.getVolume p = some (round (g * 100))) := by
  refine ⟨?_, ?_, ?_, ?_, ?_⟩
  · intro s
    simp [CS.getVolume, List.isEmpty_iff]
  · intro s h
    simp [CS.getVolume, List.isEmpty_iff, h]
  · intro env s hsome
    rw [CS.applyVolume_desiredVolume]
    by_cases h1 : s.desiredVolume ≤ 100
    · have hc : s.ctx.isSome := by
        rw [CS.applyVolume_low env s h1] at hsome
        exact hsome
      rw [CS.applyVolume_low env s h1]
      simp [hc]
    · by_cases h2 : CS.resumeCtx env (CS.ensuredCtx env s) = CtxState.running
      · rw [CS.applyVolume_boost_running env s h1 h2]
      · rw [CS.applyVolume_boost_blocked env s h1 h2]
  · intro p
    cases ht : p.trackedGains with
    | cons g l => simp [FF.getVolume, ht]
    | nil =>
        cases hd : p.docVolumes with
        | cons v l => simp [FF.getVolume, ht, hd]
        | nil => simp [FF.getVolume, ht, hd]
  · intro p g hg
    simp [FF.getVolume, hg]

/-- Witness for C9: an empty page reports the null sentinel in both
variants, and the Firefox variant with one tracked gain node at 6/5
reports that gain (120) rather than its desired-volume variable. -/
theorem C9_witness :
    (CS.getVolume ⟨none, 1, 100, []⟩ = none ↔ ([] : List MediaElem) = []) ∧
    (FF.getVolume ⟨[], []⟩ = none ↔
      (([] : List ℚ) = [] ∧ ([] : List ℚ) = [])) ∧
    FF.getVolume ⟨[6/5], [1]⟩ = some (round ((6/5 : ℚ) * 100)) := by
  have h := C9_get_volume_sentinel_and_gain_amended
  exact ⟨h.1 ⟨none, 1, 100, []⟩, h.2.2.2.1 ⟨[], []⟩,
    h.2.2.2.2 ⟨[6/5], [1]⟩ (6/5) rfl⟩

/-- C10: an element's classification is permanent: `wireElement` never
touches an already classified element; an element with an empty source
at its first evaluation is classified `skipped` (even without consulting
the capture outcome); and `applyVolume` preserves every existing
classification — in particular an element skipped for an empty source
stays `skipped` forever, even if its source later becomes
same-origin. -/
theorem C10_classification_permanent :
    (∀ (o : String) (el : MediaElem) (st : ElemStatus),
        el.status = some st → CS.wireElement o el = el) ∧
    (∀ (o : String) (el : MediaElem),
        el.status = none → el.srcInfo = SrcInfo.empty →
        CS.wireElement o el = { el with status := some ElemStatus.skipped }) ∧
    (∀ (env : Env) (s : PageState) (i : ℕ) (el : MediaElem) (st : ElemStatus),
        s.elements[i]? = some el → el.status = some st →
        ∃ el', (CS.applyVolume env s).elements[i]? = some el' ∧
          el'.status = some st) := by
  refine ⟨?_, ?_, ?_⟩
  · intro o el st h
    exact CS.wireElement_of_status_isSome o el (by simp [h])
  · intro o el h0 hsrc
    simp [CS.wireElement, h0, CS.canUseWebAudioBoost, hsrc]
  · intro env s i el st hel hst
    by_cases h1 : s.desiredVolume ≤ 100
    · rw [CS.applyVolume_low env s h1]
      by_cases hw : el.status = some ElemStatus.wired
      · refine ⟨{ el with volume := 1 }, ?_, hst⟩
        simp [List.getElem?_map, hel, hw]
      · refine ⟨{ el with volume := s.desiredVolume / 100 }, ?_, hst⟩
        simp [List.getElem?_map, hel, hw]
    · by_cases h2 : CS.resumeCtx env (CS.ensuredCtx env s) = CtxState.running
      · rw [CS.applyVolume_boost_running env s h1 h2]
        have hwe := CS.wireElement_of_status_isSome env.pageOrigin el (by simp [hst])
        refine ⟨{ CS.wireElement env.pageOrigin el with volume := 1 }, ?_, ?_⟩
        · simp [List.getElem?_map, hel]
        · rw [hwe]; exact hst
      · rw [CS.applyVolume_boost_blocked env s h1 h2]
        refine ⟨{ el with volume := 1 }, ?_, hst⟩
        simp [List.getElem?_map, hel]

/-- Witness for C10: an element skipped at first evaluation (empty
source) stays skipped when `wireElement` later sees it with a
same-origin source; and an unclassified element with empty source is
skipped on first evaluation. -/
theorem C10_witness :
    CS.wireElement "https://page.example"
      ⟨SrcInfo.parsed "https:" "https://page.example", none, false, 1,
        some ElemStatus.skipped⟩
      = ⟨SrcInfo.parsed "https:" "https://page.example", none, false, 1,
        some ElemStatus.skipped⟩ ∧
    CS.wireElement "o" ⟨SrcInfo.empty, none, false, 1, none⟩
      = ⟨SrcInfo.empty, none, false, 1, some ElemStatus.skipped⟩ := by
  have h := C10_classification_permanent
  exact ⟨h.1 "https://page.example" _ ElemStatus.skipped rfl, h.2.1 "o" _ rfl rfl⟩
